import Mathlib

/-!
Verification of the loss-landscape surface-crunching engine
(`loss_landscape/plot_surface.py`, `loss_landscape/plot_hessian_eigen.py`).

Scalars are modelled as rationals (the numerical values the claims talk
about, such as the sentinels and the example grid, are all exactly
representable).  Grid fields are lists of rationals; the surface file is a
record of optional datasets.
-/

/-- `np.linspace(lo, hi, num)` with `endpoint=True`, translated to exact
rational arithmetic: for `num ≥ 2` the i-th entry is
`lo + (hi - lo) * i / (num - 1)`. -/
def linspace (lo hi : ℚ) (num : Nat) : List ℚ :=
  if num = 0 then []
  else if num = 1 then [lo]
  else (List.range num).map (fun i => lo + ((hi - lo) * i) / ((num - 1 : Nat) : ℚ))

/-- Field creation in `crunch` (plot_surface.py lines 93-98): an absent loss
field is created as `-np.ones(shape)`. -/
def crunchLossInit (shape : Nat) : List ℚ := List.replicate shape (-1)

/-- Field creation in `crunch` (plot_surface.py lines 93-98): an absent
accuracy field is created as `-np.ones(shape)`. -/
def crunchAccInit (shape : Nat) : List ℚ := List.replicate shape (-1)

/-- Field creation in `crunch_hessian_eigs` (plot_hessian_eigen.py line 54):
the absent `max_eig` field is created as `max_eig = -np.ones(shape)`. -/
def hessMaxEigInit (shape : Nat) : List ℚ := List.replicate shape (-1)

/-- Field creation in `crunch_hessian_eigs` (plot_hessian_eigen.py line 55):
the absent `min_eig` field is created as `min_eig = np.ones(shape)`. -/
def hessMinEigInit (shape : Nat) : List ℚ := List.replicate shape 1

/-- C1: the claim as stated is false on the code: `crunch_hessian_eigs`
initializes the max-eigenvalue field to `-1` (not `+1`) and the
min-eigenvalue field to `+1` (not `-1`); shown here at a one-cell grid. -/
theorem C1_counterexample :
    hessMaxEigInit 1 = [-1] ∧ hessMinEigInit 1 = [1] ∧
    ¬(hessMaxEigInit 1 = [1] ∧ hessMinEigInit 1 = [-1]) := by
  decide

/-- C1 (amended): a surface field created because it is absent from the
surface file is initialized entirely to its sentinel: `-1` for every loss
and accuracy field, `-1` for the max-eigenvalue field and `+1` for the
min-eigenvalue field. -/
theorem C1_sentinel_init (shape : Nat) :
    (∀ q ∈ crunchLossInit shape, q = -1) ∧
    (∀ q ∈ crunchAccInit shape, q = -1) ∧
    (∀ q ∈ hessMaxEigInit shape, q = -1) ∧
    (∀ q ∈ hessMinEigInit shape, q = 1) := by
  refine ⟨?_, ?_, ?_, ?_⟩ <;>
    · intro q hq
      exact List.eq_of_mem_replicate hq

/-- C1 witness: the amended statement evaluated at a two-cell grid. -/
theorem C1_sentinel_init_witness :
    (∀ q ∈ crunchLossInit 2, q = -1) ∧
    (∀ q ∈ crunchAccInit 2, q = -1) ∧
    (∀ q ∈ hessMaxEigInit 2, q = -1) ∧
    (∀ q ∈ hessMinEigInit 2, q = 1) :=
  C1_sentinel_init 2

/-!
## Grid and job partitioner

The scheduler module (`scheduler.get_job_indices`) is imported by both
crunch files but is not part of this repository snapshot, so it is modelled
from the specification.
-/

/-- Modelled from the spec: the scheduler's set of unfilled indices — the
flat indices of the scheduling field that are "still at sentinel value"
(exact equality against the initialization value), in grid order.  The
scheduler module itself (`scheduler.get_job_indices`) is not under `src/`. -/
def unfilledInds (field : List ℚ) (sentinel : ℚ) : List Nat :=
  (List.range field.length).filter (fun i => field.get? i = some sentinel)

/-- Modelled from the spec: the index list `get_job_indices` returns to
worker `r` of `P` — "a fixed, order-preserving round-robin rule over the
sequence of unfilled indices (worker `r` of `P` receives every `P`-th
unfilled index starting at offset `r`)". -/
def workerJobInds (field : List ℚ) (sentinel : ℚ) (P r : Nat) : List Nat :=
  let u := unfilledInds field sentinel
  ((List.range u.length).filter (fun j => j % P = r)).map (fun j => u.getD j 0)

/-- Modelled from the spec: `inds_nums`, the per-worker counts of assigned
indices that `get_job_indices` shares with every worker. -/
def indsNums (field : List ℚ) (sentinel : ℚ) (P : Nat) : List Nat :=
  (List.range P).map (fun r => (workerJobInds field sentinel P r).length)

/-- `max(inds_nums)` as used by the straggler loops of `crunch`
(plot_surface.py line 163) and `crunch_hessian_eigs`
(plot_hessian_eigen.py line 115). -/
def maxIndsNums (field : List ℚ) (sentinel : ℚ) (P : Nat) : Nat :=
  (indsNums field sentinel P).foldl Nat.max 0

/-- Number of `evaluator(net, dataloader)` calls worker `r` performs in
`crunch` (plot_surface.py lines 113-129): one call per assigned index per
configured dataloader/field pair.  Scheduling is against the first loss
field, whose sentinel is `-1`. -/
def crunchEvalCalls (field : List ℚ) (numPairs P r : Nat) : Nat :=
  numPairs * (workerJobInds field (-1) P r).length

/-- Number of `min_max_hessian_eigs` calls worker `r` performs in
`crunch_hessian_eigs` (plot_hessian_eigen.py lines 72-84): one per assigned
index.  Scheduling is against `max_eig`, whose sentinel is `-1`. -/
def crunchHessEvalCalls (maxEigField : List ℚ) (P r : Nat) : Nat :=
  (workerJobInds maxEigField (-1) P r).length

/-- Number of reduction calls (`reduce_max` invocations) worker `r` of `P`
participates in during `crunch` (plot_surface.py): the main loop makes two
per assigned index per dataloader/field pair (lines 139-140), and the
straggler loop `for i in range(max(inds_nums) - len(inds))` makes two per
remaining round (lines 163-165), on the last bound pair only. -/
def crunchReduceCalls (field : List ℚ) (numPairs P r : Nat) : Nat :=
  2 * numPairs * (workerJobInds field (-1) P r).length +
    2 * (maxIndsNums field (-1) P - (workerJobInds field (-1) P r).length)

theorem le_foldl_max (l : List Nat) (b : Nat) : b ≤ l.foldl Nat.max b := by
  induction l generalizing b with
  | nil => exact Nat.le_refl b
  | cons x xs ih =>
    exact Nat.le_trans (Nat.le_max_left b x) (ih (Nat.max b x))

theorem mem_le_foldl_max (l : List Nat) (b a : Nat) (h : a ∈ l) :
    a ≤ l.foldl Nat.max b := by
  induction l generalizing b with
  | nil => cases h
  | cons x xs ih =>
    rcases List.mem_cons.mp h with h1 | h2
    · subst h1
      exact Nat.le_trans (Nat.le_max_right b a) (le_foldl_max xs (Nat.max b a))
    · exact ih (Nat.max b x) h2

theorem unfilledInds_eq_nil (field : List ℚ) (h : ∀ q ∈ field, q ≠ -1) :
    unfilledInds field (-1) = [] := by
  unfold unfilledInds
  refine List.filter_eq_nil_iff.mpr ?_
  intro i _
  simp only [decide_eq_true_eq]
  intro hget
  exact h _ (List.get?_mem hget) rfl

/-!
## The shared per-cell step of the crunch loops

All four crunch variants share the same per-cell step (plot_surface.py
lines 118-134 and 210-224, plot_hessian_eigen.py lines 77-90): dispatch on
`args.dir_type` to mutate the live net in place, then invoke the evaluator
once per configured dataloader/field pair and record the returned pair.
The net is a mutable object threaded from cell to cell; the dispatch has no
else-branch, so an unrecognized `dir_type` leaves the net untouched and
raises nothing.
-/

/-- The `dir_type` dispatch:
`if args.dir_type == 'weights': set_weights(...) elif args.dir_type ==
'states': set_states(...)` — with no else-branch. -/
def applyDirection {α γ : Type} (dirType : String) (setW setS : α → γ → α)
    (net : α) (coord : γ) : α :=
  if dirType = "weights" then setW net coord
  else if dirType = "states" then setS net coord
  else net

/-- The cell loop of `crunch_2` (plot_surface.py lines 205-224), also the
per-cell skeleton of the other variants: for each coordinate in order,
apply the direction dispatch to the threaded net, call each evaluator
closure on the resulting net, and record the `(loss, acc)` pairs.  Returns
the final net and the per-cell records. -/
def crunchCellLoop {α γ : Type} (dirType : String) (setW setS : α → γ → α)
    (evalFns : List (α → ℚ × ℚ)) : α → List γ → α × List (List (ℚ × ℚ))
  | net, [] => (net, [])
  | net, c :: cs =>
    let net1 := applyDirection dirType setW setS net c
    let recd := evalFns.map (fun ev => ev net1)
    let rest := crunchCellLoop dirType setW setS evalFns net1 cs
    (rest.1, recd :: rest.2)

/-- Total number of evaluator invocations `crunch_2` performs over a grid:
the loop runs over `inds = np.array(range(losses[loss_keys[0]].size))`
(plot_surface.py line 199) — every flat index, with no sentinel check —
and makes one evaluator call per index per dataloader/field pair. -/
def crunch2EvalCalls {α γ : Type} (dirType : String) (setW setS : α → γ → α)
    (evalFns : List (α → ℚ × ℚ)) (net0 : α) (coords : List γ) : Nat :=
  (((crunchCellLoop dirType setW setS evalFns net0 coords).2).map List.length).sum

/-- Analogue for `crunch_hessian_eigs_2` (plot_hessian_eigen.py line 147):
`inds = np.array(range(max_eig.size))` — one `min_max_hessian_eigs` call
per flat index, with no sentinel check. -/
def crunchHess2EvalCalls (gridSize : Nat) : Nat := gridSize

theorem crunchCellLoop_evalSum {α γ : Type} (dirType : String)
    (setW setS : α → γ → α) (evalFns : List (α → ℚ × ℚ)) (net0 : α)
    (coords : List γ) :
    crunch2EvalCalls dirType setW setS evalFns net0 coords =
      coords.length * evalFns.length := by
  unfold crunch2EvalCalls
  induction coords generalizing net0 with
  | nil => simp [crunchCellLoop]
  | cons c cs ih =>
    simp only [crunchCellLoop, List.map_cons, List.sum_cons, List.length_cons,
      List.length_map]
    rw [ih]
    ring

/-- C2: the claim is false as stated: on a two-cell store whose cells are
all non-sentinel, `crunch_2` still performs one evaluator call per cell
(two calls, not zero), because its index list is `range(size)` with no
sentinel mask. -/
theorem C2_counterexample :
    (∀ q ∈ [(5 : ℚ), 7], q ≠ -1) ∧
    crunch2EvalCalls "weights" (fun (n : ℚ) (c : ℚ) => n + c) (fun n c => n + c)
      [fun n => (n, n)] (0 : ℚ) [(-1 : ℚ), 1] = 2 ∧
    (2 : Nat) ≠ 0 := by
  refine ⟨by decide, ?_, by decide⟩
  decide

/-- C2 (amended): against a store whose cells are all non-sentinel, the
synchronized variants (`crunch`, `crunch_hessian_eigs`) perform zero
evaluator calls for every worker, while the non-synchronized variants
(`crunch_2`, `crunch_hessian_eigs_2`) perform one evaluator call per grid
cell per configured pair on every run (they never consult the sentinel
mask). -/
theorem C2_resumability (field : List ℚ) (numPairs P r : Nat)
    {α : Type} (dirType : String) (setW setS : α → ℚ → α)
    (evalFns : List (α → ℚ × ℚ)) (net0 : α) (coords : List ℚ)
    (h : ∀ q ∈ field, q ≠ -1) (hc : coords.length = field.length) :
    crunchEvalCalls field numPairs P r = 0 ∧
    crunchHessEvalCalls field P r = 0 ∧
    crunch2EvalCalls dirType setW setS evalFns net0 coords =
      evalFns.length * field.length ∧
    crunchHess2EvalCalls field.length = field.length := by
  have hz : (workerJobInds field (-1) P r).length = 0 := by
    unfold workerJobInds
    rw [unfilledInds_eq_nil field h]
    rfl
  refine ⟨?_, ?_, ?_, rfl⟩
  · unfold crunchEvalCalls
    rw [hz, Nat.mul_zero]
  · exact hz
  · rw [crunchCellLoop_evalSum, hc, Nat.mul_comm]

/-- C2 witness: the amended statement evaluated on the concrete fully
computed store `[5, 7]` with one dataloader/field pair and one worker. -/
theorem C2_resumability_witness :
    (∀ q ∈ [(5 : ℚ), 7], q ≠ -1) ∧
    ((List.length [(-1 : ℚ), 1]) = (List.length [(5 : ℚ), 7])) ∧
    (crunchEvalCalls [(5 : ℚ), 7] 1 1 0 = 0 ∧
     crunchHessEvalCalls [(5 : ℚ), 7] 1 0 = 0 ∧
     crunch2EvalCalls "weights" (fun (n : ℚ) (c : ℚ) => n + c) (fun n c => n + c)
       [fun n => (n, n)] (0 : ℚ) [(-1 : ℚ), 1] =
       (List.length [fun (n : ℚ) => (n, n)]) * (List.length [(5 : ℚ), 7]) ∧
     crunchHess2EvalCalls (List.length [(5 : ℚ), 7]) = List.length [(5 : ℚ), 7]) :=
  ⟨by decide, by decide,
    C2_resumability [(5 : ℚ), 7] 1 1 0 "weights" (fun n c => n + c)
      (fun n c => n + c) [fun n => (n, n)] (0 : ℚ) [(-1 : ℚ), 1]
      (by decide) (by decide)⟩

/-- C4: the claim is false as stated for two dataloader/field pairs: with
two workers and one unfilled cell, the worker holding the cell participates
in 4 reduction calls (two per pair) while the straggler participates in
only 2 (the straggler loop reduces just the last bound pair once per
remaining round), so the totals differ. -/
theorem C4_counterexample :
    crunchReduceCalls [(-1 : ℚ)] 2 2 0 = 4 ∧
    crunchReduceCalls [(-1 : ℚ)] 2 2 1 = 2 ∧
    (4 : Nat) ≠ 2 := by
  refine ⟨by decide, by decide, by decide⟩

/-- C4 (amended): with exactly one configured dataloader/field pair, every
worker `r < P` participates in the same total number of reduction calls,
namely `2 * max(inds_nums)`: a worker assigned `k` cells of maximum `m`
makes `2k` calls in its main loop and `2(m-k)` additional calls in the
straggler loop, so the run terminates without deadlock; for two or more
pairs the totals differ between workers (see the counterexample). -/
theorem C4_straggler (field : List ℚ) (P r : Nat) (hr : r < P) :
    crunchReduceCalls field 1 P r = 2 * maxIndsNums field (-1) P := by
  have hmem : (workerJobInds field (-1) P r).length ∈ indsNums field (-1) P := by
    unfold indsNums
    exact List.mem_map_of_mem _ (List.mem_range.mpr hr)
  have hle := mem_le_foldl_max _ 0 _ hmem
  unfold crunchReduceCalls maxIndsNums
  unfold maxIndsNums at hle
  omega

/-- C4 witness: the amended statement at the concrete one-unfilled-cell
store with two workers; the straggler (rank 1) totals `2 = 2 * 1` calls. -/
theorem C4_straggler_witness :
    1 < 2 ∧
    crunchReduceCalls [(-1 : ℚ)] 1 2 1 = 2 * maxIndsNums [(-1 : ℚ)] (-1) 2 :=
  ⟨by decide, C4_straggler [(-1 : ℚ)] 2 1 (by decide)⟩

/-!
## Persistent surface store: `setup_surface_file` and write discipline
-/

/-- The surface store file contents: the `dir_file` back-reference and the
coordinate axis datasets (plot_surface.py lines 64-74).  `none` means the
key is absent. -/
structure SurfaceFile where
  dirFile : Option String
  xcoords : Option (List ℚ)
  ycoords : Option (List ℚ)
deriving DecidableEq

/-- The early-return condition of `setup_surface_file` (plot_surface.py
lines 57-62): the file exists and
`(args.y and 'ycoordinates' in f.keys()) or 'xcoordinates' in f.keys()`. -/
def setupSkips (hasY : Bool) (fs : Option SurfaceFile) : Bool :=
  match fs with
  | none => false
  | some f => (hasY && f.ycoords.isSome) || f.xcoords.isSome

/-- `setup_surface_file` (plot_surface.py lines 55-76): if the skip
condition holds the file is left untouched; otherwise the file is opened in
append mode (kept if it exists, created otherwise) and `dir_file`,
`xcoordinates` and — when `args.y` is set — `ycoordinates` are written. -/
def setup_surface_file (hasY : Bool) (xmin xmax : ℚ) (xnum : Nat)
    (ymin ymax : ℚ) (ynum : Nat) (dirF : String)
    (fs : Option SurfaceFile) : Option SurfaceFile :=
  if setupSkips hasY fs then fs
  else
    let f0 := fs.getD ⟨none, none, none⟩
    some { dirFile := some dirF,
           xcoords := some (linspace xmin xmax xnum),
           ycoords := if hasY then some (linspace ymin ymax ynum) else f0.ycoords }

/-- The no-op condition the claim states, in the spec's words: the file
exists and already contains all axes required by the requested grid
(`xcoordinates` for a 1-D grid; both `xcoordinates` and `ycoordinates` for
a 2-D grid).  Declared for comparison with the code's `setupSkips`. -/
def requiredAxesPresent (hasY : Bool) (fs : Option SurfaceFile) : Bool :=
  match fs with
  | none => false
  | some f => f.xcoords.isSome && (!hasY || f.ycoords.isSome)

/-- An existing surface file that holds `xcoordinates` but no
`ycoordinates`. -/
def fileXonly : SurfaceFile := ⟨none, some [0], none⟩

/-- C5: the claim is false as stated: for a 2-D grid request against an
existing file that has `xcoordinates` but no `ycoordinates`,
`setup_surface_file` no-ops (its skip condition uses `or`), although the
required `ycoordinates` axis is absent. -/
theorem C5_counterexample :
    setup_surface_file true 0 1 2 0 1 2 "d" (some fileXonly) = some fileXonly ∧
    fileXonly.ycoords = none ∧
    requiredAxesPresent true (some fileXonly) = false := by
  decide

/-- C5 (amended): `setup_surface_file` creates the file and writes the
coordinate axes plus the direction-file back-reference when the file does
not exist, and is a no-op if and only if the file exists and already
contains `xcoordinates`, or — for a 2-D grid — contains `ycoordinates`
(either axis suffices; the skip condition is a disjunction). -/
theorem C5_setup (hasY : Bool) (xmin xmax : ℚ) (xnum : Nat) (ymin ymax : ℚ)
    (ynum : Nat) (dirF : String) (fs : Option SurfaceFile) :
    setup_surface_file hasY xmin xmax xnum ymin ymax ynum dirF none =
      some ⟨some dirF, some (linspace xmin xmax xnum),
            if hasY then some (linspace ymin ymax ynum) else none⟩ ∧
    (setup_surface_file hasY xmin xmax xnum ymin ymax ynum dirF fs = fs ↔
      ∃ f, fs = some f ∧
        ((hasY = true ∧ f.ycoords.isSome = true) ∨ f.xcoords.isSome = true)) := by
  constructor
  · rfl
  · by_cases hskip : setupSkips hasY fs = true
    · constructor
      · intro _
        match fs, hskip with
        | some f, hskip =>
          refine ⟨f, rfl, ?_⟩
          simpa [setupSkips, Bool.or_eq_true, Bool.and_eq_true] using hskip
      · intro _
        simp [setup_surface_file, hskip]
    · constructor
      · intro heq
        exfalso
        rw [setup_surface_file, if_neg hskip] at heq
        match fs, hskip, heq with
        | none, _, heq => exact Option.noConfusion heq
        | some f, hskip, heq =>
          apply hskip
          have hx : f.xcoords = some (linspace xmin xmax xnum) :=
            (congrArg SurfaceFile.xcoords (Option.some.inj heq)).symm
          simp [setupSkips, hx]
      · intro hex
        exfalso
        rcases hex with ⟨f, rfl, hcond⟩
        apply hskip
        simp only [setupSkips, Bool.or_eq_true, Bool.and_eq_true]
        rcases hcond with ⟨hy, hyc⟩ | hxc
        · exact Or.inl ⟨hy, hyc⟩
        · exact Or.inr hxc

/-- C5 witness: the amended statement at a concrete nonexistent 1-D file
and a concrete existing file holding `xcoordinates` (skip both ways). -/
theorem C5_setup_witness :
    (setup_surface_file false (-1) 1 5 0 0 0 "d" none =
      some ⟨some "d", some (linspace (-1) 1 5),
            if false then some (linspace 0 0 0) else none⟩ ∧
     (setup_surface_file false (-1) 1 5 0 0 0 "d" (some fileXonly) = some fileXonly ↔
       ∃ f, some fileXonly = some f ∧
         ((false = true ∧ f.ycoords.isSome = true) ∨ f.xcoords.isSome = true))) :=
  C5_setup false (-1) 1 5 0 0 0 "d" (some fileXonly)

/-!
## Leader-only write discipline of `crunch` (C3)
-/

/-- The file-open mode of `crunch` (plot_surface.py line 87):
`h5py.File(surf_file, 'r+' if rank == 0 else 'r')`. -/
def crunchOpenMode (rank : Nat) : String := if rank = 0 then "r+" else "r"

/-- Number of dataset writes the field-creation loop of `crunch`
(plot_surface.py lines 93-98) performs: for every absent dataloader/field
pair it executes `f[loss_key] = ...` and `f[acc_key] = ...`.  The `rank`
argument is in scope in the source but is not consulted at this step (the
writes are unguarded, unlike `crunch_hessian_eigs` lines 56-58). -/
def crunchCreationWrites (rank : Nat) (present : List Bool) : Nat :=
  2 * (present.filter (fun b => !b)).length

/-- Number of per-cell commit writes of `crunch` (plot_surface.py lines
146-151): only performed under `if rank == 0`. -/
def crunchCommitWrites (rank numPairs numCells : Nat) : Nat :=
  if rank = 0 then numCells * (2 * numPairs) else 0

/-- Total dataset writes a worker of a given rank attempts on the surface
file during one `crunch` run. -/
def crunchFileWrites (rank : Nat) (present : List Bool)
    (numPairs numCells : Nat) : Nat :=
  crunchCreationWrites rank present + crunchCommitWrites rank numPairs numCells

/-- C3: a worker with rank 1 opens the surface file read-only, yet when its
single loss/accuracy field pair is absent the field-creation step of
`crunch` still attempts two dataset writes — the claim that non-leaders
perform no write, which the spec states and `crunch_hessian_eigs` enforces
with a rank guard, is violated by `crunch` at this step. -/
theorem C3_nonleader_write :
    crunchOpenMode 1 = "r" ∧
    crunchFileWrites 1 [false] 1 0 = 2 ∧
    (2 : Nat) ≠ 0 := by
  refine ⟨rfl, rfl, by decide⟩

/-!
## Commit timing of the non-synchronized variants (C6)
-/

/-- Observable file/evaluator events of a crunch run: an evaluator call for
a cell and pair, a commit of a pair's full field arrays, and an explicit
`f.flush()`. -/
inductive CEv where
  | evalEv (cell pair : Nat)
  | commitEv (pair : Nat)
  | flushEv
deriving DecidableEq

/-- Truth test for commit events. -/
def isCommitEv : CEv → Bool
  | CEv.commitEv _ => true
  | _ => false

/-- Truth test for flush events. -/
def isFlushEv : CEv → Bool
  | CEv.flushEv => true
  | _ => false

/-- The events emitted inside the cell loop of `crunch_2` (plot_surface.py
lines 205-233): per cell, one evaluator call per dataloader/field pair —
and nothing else touching the file. -/
def crunch2LoopEvents (size numPairs : Nat) : List CEv :=
  ((List.range size).map
    (fun c => (List.range numPairs).map (fun p => CEv.evalEv c p))).flatten

/-- The full event trace of `crunch_2` (plot_surface.py lines 205-238): the
cell loop, then one commit of the full arrays per pair
(`f[loss_key][:] = ...; f[acc_key][:] = ...`), then `f.flush()`. -/
def crunch2Events (size numPairs : Nat) : List CEv :=
  crunch2LoopEvents size numPairs ++
    ((List.range numPairs).map (fun p => CEv.commitEv p) ++ [CEv.flushEv])

/-- The full event trace of `crunch_hessian_eigs_2` (plot_hessian_eigen.py
lines 153-194): the cell loop (one `min_max_hessian_eigs` call per cell),
then a single commit of `max_eig`/`min_eig` — with no explicit flush
(the file is only closed). -/
def crunchHess2Events (size : Nat) : List CEv :=
  (List.range size).map (fun c => CEv.evalEv c 0) ++ [CEv.commitEv 0]

/-- The event trace the claim describes, in the spec's words: the full
field arrays committed once after each cell finishes every field for that
cell, then a final commit with flush at loop end.  Declared for comparison
with the code's `crunch2Events`. -/
def claimedCrunch2Events (size numPairs : Nat) : List CEv :=
  ((List.range size).map
    (fun c => (List.range numPairs).map (fun p => CEv.evalEv c p) ++
              (List.range numPairs).map (fun p => CEv.commitEv p))).flatten ++
    ((List.range numPairs).map (fun p => CEv.commitEv p) ++ [CEv.flushEv])

/-- C6: the claim is false as stated: on a two-cell grid with one
dataloader/field pair, the trace of `crunch_2` has no commit between the
two cells, unlike the per-cell-commit trace the claim describes. -/
theorem C6_counterexample :
    crunch2Events 2 1 ≠ claimedCrunch2Events 2 1 ∧
    crunch2Events 2 1 =
      [CEv.evalEv 0 0, CEv.evalEv 1 0, CEv.commitEv 0, CEv.flushEv] := by
  refine ⟨by decide, by decide⟩

/-- C6 (amended): in the non-synchronized single-process variants no commit
happens during the cell loop; the full field arrays are committed exactly
once after the loop over all cells ends — followed by an explicit flush in
`crunch_2` (one commit per pair, then `f.flush()`), while
`crunch_hessian_eigs_2` performs its single final commit with no explicit
flush. -/
theorem C6_commit_at_end (size numPairs : Nat) :
    (crunch2LoopEvents size numPairs).countP isCommitEv = 0 ∧
    (crunch2Events size numPairs).countP isCommitEv = numPairs ∧
    (crunch2Events size numPairs).countP isFlushEv = 1 ∧
    (crunch2Events size numPairs).getLast? = some CEv.flushEv ∧
    (crunchHess2Events size).countP isCommitEv = 1 ∧
    (crunchHess2Events size).countP isFlushEv = 0 := by
  have hmemLoop : ∀ e ∈ crunch2LoopEvents size numPairs,
      ∃ c p, e = CEv.evalEv c p := by
    intro e he
    unfold crunch2LoopEvents at he
    rcases List.mem_flatten.mp he with ⟨l, hl, hel⟩
    rcases List.mem_map.mp hl with ⟨c, _, rfl⟩
    rcases List.mem_map.mp hel with ⟨p, _, rfl⟩
    exact ⟨c, p, rfl⟩
  have hloopC : (crunch2LoopEvents size numPairs).countP isCommitEv = 0 := by
    refine List.countP_eq_zero.mpr ?_
    intro e he
    rcases hmemLoop e he with ⟨c, p, rfl⟩
    simp [isCommitEv]
  have hloopF : (crunch2LoopEvents size numPairs).countP isFlushEv = 0 := by
    refine List.countP_eq_zero.mpr ?_
    intro e he
    rcases hmemLoop e he with ⟨c, p, rfl⟩
    simp [isFlushEv]
  have hcommitsC : ((List.range numPairs).map (fun p => CEv.commitEv p)).countP
      isCommitEv = numPairs := by
    have hlen : ((List.range numPairs).map (fun p => CEv.commitEv p)).length
        = numPairs := by
      simp
    have hall : ∀ e ∈ (List.range numPairs).map (fun p => CEv.commitEv p),
        isCommitEv e := by
      intro e he
      rcases List.mem_map.mp he with ⟨p, _, rfl⟩
      simp [isCommitEv]
    exact (List.countP_eq_length.mpr hall).trans hlen
  have hcommitsF : ((List.range numPairs).map (fun p => CEv.commitEv p)).countP
      isFlushEv = 0 := by
    refine List.countP_eq_zero.mpr ?_
    intro e he
    rcases List.mem_map.mp he with ⟨p, _, rfl⟩
    simp [isFlushEv]
  have hevalsC : ((List.range size).map (fun c => CEv.evalEv c 0)).countP
      isCommitEv = 0 := by
    refine List.countP_eq_zero.mpr ?_
    intro e he
    rcases List.mem_map.mp he with ⟨c, _, rfl⟩
    simp [isCommitEv]
  have hevalsF : ((List.range size).map (fun c => CEv.evalEv c 0)).countP
      isFlushEv = 0 := by
    refine List.countP_eq_zero.mpr ?_
    intro e he
    rcases List.mem_map.mp he with ⟨c, _, rfl⟩
    simp [isFlushEv]
  have hsingC : List.countP isCommitEv [CEv.flushEv] = 0 := by decide
  have hsingF : List.countP isFlushEv [CEv.flushEv] = 1 := by decide
  have hsingC2 : List.countP isCommitEv [CEv.commitEv 0] = 1 := by decide
  have hsingF2 : List.countP isFlushEv [CEv.commitEv 0] = 0 := by decide
  refine ⟨hloopC, ?_, ?_, ?_, ?_, ?_⟩
  · unfold crunch2Events
    simp only [List.countP_append, hloopC, hcommitsC, hsingC]
    omega
  · unfold crunch2Events
    simp only [List.countP_append, hloopF, hcommitsF, hsingF]
  · unfold crunch2Events
    rw [← List.append_assoc, List.getLast?_concat]
  · unfold crunchHess2Events
    simp only [List.countP_append, hevalsC, hsingC2]
  · unfold crunchHess2Events
    simp only [List.countP_append, hevalsF, hsingF2]

/-!
## Resolution-string parsing in `init_plot_surface` / `plot_hessian_eigen`
(C7, C9)

`args.x.split(':')` followed by `float(a)` per token, a 3-tuple unpacking,
and (for the y axis only) `assert args.ymin and args.ymax and args.ynum`;
any failure inside the try block is converted to
`Exception('Improper format for x- or y-coordinates. ...')`
(plot_surface.py lines 273-282, identical in plot_hessian_eigen.py lines
224-233).  The numeric token parser (Python's `float`) is abstracted as a
parameter `p`; a token is malformed exactly when `p` rejects it.
-/

/-- Python's `str.split(':')`: split a character list on `':'`, keeping
empty tokens (so the empty string yields one empty token). -/
def splitColon : List Char → List (List Char)
  | [] => [[]]
  | c :: cs =>
    let r := splitColon cs
    if c = ':' then [] :: r
    else
      match r with
      | [] => [[c]]
      | h :: t => (c :: h) :: t

/-- The error message raised on any failure inside the try block. -/
def improperMsg : String :=
  "Improper format for x- or y-coordinates. Try something like -1:1:51"

/-- `[float(a) for a in s.split(':')]` unpacked into exactly three values:
succeeds iff the split yields exactly three tokens and the numeric parser
`p` accepts each. -/
def parseRes (p : List Char → Option ℚ) (s : String) : Option (ℚ × ℚ × ℚ) :=
  match splitColon s.toList with
  | [a, b, c] =>
    match p a, p b, p c with
    | some u, some v, some w => some (u, v, w)
    | _, _, _ => none
  | _ => none

/-- Python `int()` applied to an exact rational: truncation toward zero. -/
def pyInt (q : ℚ) : Int :=
  if 0 ≤ q then (q.num.toNat / q.den : Nat) else -(((-q).num.toNat / q.den : Nat))

/-- The parsed resolution arguments produced by a successful
`init_plot_surface`. -/
structure ResArgs where
  xmin : ℚ
  xmax : ℚ
  xnum : Int
  yres : Option (ℚ × ℚ × Int)
deriving DecidableEq

/-- The resolution-checking step of `init_plot_surface` (plot_surface.py
lines 273-282) and of `plot_hessian_eigen` (plot_hessian_eigen.py lines
224-233): parse the x string, then — when a y string is supplied — parse
it and assert the Python truthiness of `ymin`, `ymax` and `ynum` (a parsed
value of exactly `0` fails the assert); every failure raises the same
`improperMsg` exception.  The x components get no truthiness assert. -/
def init_plot_surface (p : List Char → Option ℚ) (x : String)
    (y : Option String) : Except String ResArgs :=
  match parseRes p x with
  | none => Except.error improperMsg
  | some (xmin, xmax, xnum) =>
    match y with
    | none => Except.ok ⟨xmin, xmax, pyInt xnum, none⟩
    | some ys =>
      match parseRes p ys with
      | none => Except.error improperMsg
      | some (ymin, ymax, ynum) =>
        if ymin = 0 ∨ ymax = 0 ∨ ynum = 0 then Except.error improperMsg
        else Except.ok ⟨xmin, xmax, pyInt xnum, some (ymin, ymax, pyInt ynum)⟩

/-- The I/O steps `plot_surface` performs after `init_plot_surface`
returns: loading the model, then setting up the direction file, then
setting up the surface file (plot_surface.py lines 324-345). -/
inductive SetupEv where
  | netLoadEv
  | dirSetupEv
  | surfSetupEv
deriving DecidableEq

/-- The control flow of `plot_surface` up to the crunch call
(plot_surface.py lines 324-345): `init_plot_surface` runs first; if it
raises, the exception propagates and none of the model-load /
direction-file / surface-file steps run.  Returns the I/O events performed
together with the outcome. -/
def plot_surface_events (p : List Char → Option ℚ) (x : String)
    (y : Option String) : List SetupEv × Except String ResArgs :=
  match init_plot_surface p x y with
  | Except.error e => ([], Except.error e)
  | Except.ok a =>
    ([SetupEv.netLoadEv, SetupEv.dirSetupEv, SetupEv.surfSetupEv], Except.ok a)

/-- Modelled from the spec: a restricted decimal model of Python's builtin
`float` (an external, not part of the repository): an optional leading
minus sign followed by one or more digits.  Used only to instantiate the
abstract numeric-token parser at concrete witness inputs. -/
def pQ (s : List Char) : Option ℚ :=
  let digitsToNat : List Char → Option Nat := fun cs =>
    if cs.isEmpty then none
    else
      cs.foldl (fun acc c =>
        match acc with
        | none => none
        | some n => if c.isDigit then some (10 * n + (c.toNat - 48)) else none)
        (some 0)
  match s with
  | '-' :: rest => (digitsToNat rest).map (fun n => -(n : ℚ))
  | cs => (digitsToNat cs).map (fun n => (n : ℚ))

/-- C7: for every malformed x or y resolution string (one the try block
cannot parse into three numeric components), initialization raises the
descriptive `improperMsg` error and the run performs no surface-store or
direction-file I/O (the event list is empty). -/
theorem C7_fail_fast (p : List Char → Option ℚ) (x : String) (y : Option String)
    (h : parseRes p x = none ∨ ∃ ys, y = some ys ∧ parseRes p ys = none) :
    plot_surface_events p x y = ([], Except.error improperMsg) := by
  rcases h with hx | ⟨ys, rfl, hy⟩
  · simp [plot_surface_events, init_plot_surface, hx]
  · cases hxv : parseRes p x with
    | none => simp [plot_surface_events, init_plot_surface, hxv]
    | some t =>
      obtain ⟨xmin, xmax, xnum⟩ := t
      simp [plot_surface_events, init_plot_surface, hxv, hy]

/-- C7 witness: the malformed x string `"-1:1"` (two components) with no y
string: no I/O event happens and the improper-format error is raised. -/
theorem C7_fail_fast_witness :
    (parseRes pQ "-1:1" = none ∨
      ∃ ys, (none : Option String) = some ys ∧ parseRes pQ ys = none) ∧
    plot_surface_events pQ "-1:1" none = ([], Except.error improperMsg) :=
  ⟨Or.inl (by decide), C7_fail_fast pQ "-1:1" none (Or.inl (by decide))⟩

/-- C9: a well-formed y resolution string whose min, max or num component
parses to exactly `0` is rejected with the very same `improperMsg` error
used for malformed strings: the assert
`assert args.ymin and args.ymax and args.ynum` treats the float `0.0` as
falsy. -/
theorem C9_zero_component (p : List Char → Option ℚ) (x ys : String)
    (a b c : ℚ) (hy : parseRes p ys = some (a, b, c))
    (h0 : a = 0 ∨ b = 0 ∨ c = 0) :
    init_plot_surface p x (some ys) = Except.error improperMsg := by
  cases hxv : parseRes p x with
  | none => simp [init_plot_surface, hxv]
  | some t =>
    obtain ⟨xmin, xmax, xnum⟩ := t
    simp [init_plot_surface, hxv, hy, if_pos h0]

/-- C9 witness: the well-formed strings x = `"1:2:3"`, y = `"0:1:51"`: the
y string parses to `(0, 1, 51)` yet initialization errors with the
improper-format message. -/
theorem C9_zero_component_witness :
    parseRes pQ "0:1:51" = some (0, 1, 51) ∧
    ((0 : ℚ) = 0 ∨ (1 : ℚ) = 0 ∨ (51 : ℚ) = 0) ∧
    init_plot_surface pQ "1:2:3" (some "0:1:51") = Except.error improperMsg :=
  ⟨by decide, Or.inl rfl,
    C9_zero_component pQ "1:2:3" "0:1:51" 0 1 51 (by decide) (Or.inl rfl)⟩

/-!
## Example 1 (C8) and unknown `dir_type` behavior (C10)
-/

/-- The in-place writes `losses[loss_key].ravel()[ind] = loss` of the crunch
loops: fold a list of `(flat index, value)` writes over the initial field
array. -/
def commitArray (init : List ℚ) (writes : List (Nat × ℚ)) : List ℚ :=
  writes.foldl (fun a w => a.set w.1 w.2) init

/-- C8: for the 1-D resolution `xmin=-1, xmax=1, xnum=5` the coordinate
axis is exactly `[-1, -0.5, 0, 0.5, 1]` and `setup_surface_file` writes it
to the store; a single-worker `crunch_2` run iterates all 5 cells, and the
committed `train_loss` array has length 5 with no entry left at the
sentinel `-1` (given that the evaluator never returns a loss of exactly
`-1`). -/
theorem C8_example {α : Type} (setW setS : α → ℚ → α) (net0 : α)
    (ev : α → ℚ × ℚ) (h : ∀ m : α, (ev m).1 ≠ -1) :
    linspace (-1) 1 5 = [-1, -1/2, 0, 1/2, 1] ∧
    setup_surface_file false (-1) 1 5 0 0 0 "dir" none =
      some ⟨some "dir", some (linspace (-1) 1 5), none⟩ ∧
    ((crunchCellLoop "weights" setW setS [ev] net0 (linspace (-1) 1 5)).2).length
      = 5 ∧
    (commitArray (crunchLossInit 5)
      ((List.range 5).zip
        (((crunchCellLoop "weights" setW setS [ev] net0
            (linspace (-1) 1 5)).2).map (fun r => (r.headD (0, 0)).1)))).length
      = 5 ∧
    ∀ q ∈ commitArray (crunchLossInit 5)
      ((List.range 5).zip
        (((crunchCellLoop "weights" setW setS [ev] net0
            (linspace (-1) 1 5)).2).map (fun r => (r.headD (0, 0)).1))),
      q ≠ -1 := by
  have hx : linspace (-1) 1 5 = [-1, -1/2, 0, 1/2, 1] := by
    norm_num [linspace, List.range_succ]
  refine ⟨hx, rfl, ?_, ?_, ?_⟩
  · rw [hx]
    exact rfl
  · rw [hx]
    exact rfl
  · rw [hx]
    intro q hq
    have hcom :
        commitArray (crunchLossInit 5)
          ((List.range 5).zip
            (((crunchCellLoop "weights" setW setS [ev] net0
                [-1, -1/2, 0, 1/2, 1]).2).map (fun r => (r.headD (0, 0)).1))) =
          [(ev (setW net0 (-1))).1,
           (ev (setW (setW net0 (-1)) (-1/2))).1,
           (ev (setW (setW (setW net0 (-1)) (-1/2)) 0)).1,
           (ev (setW (setW (setW (setW net0 (-1)) (-1/2)) 0) (1/2))).1,
           (ev (setW (setW (setW (setW (setW net0 (-1)) (-1/2)) 0) (1/2)) 1)).1]
        := rfl
    rw [hcom] at hq
    simp only [List.mem_cons, List.not_mem_nil, or_false] at hq
    rcases hq with rfl | rfl | rfl | rfl | rfl <;> exact h _

/-- C8 witness: the example run with the constant evaluator `(2, 3)` on
nets carried as rationals. -/
theorem C8_example_witness :
    (∀ m : ℚ, ((fun _ : ℚ => ((2 : ℚ), (3 : ℚ))) m).1 ≠ -1) ∧
    (linspace (-1) 1 5 = [-1, -1/2, 0, 1/2, 1] ∧
     setup_surface_file false (-1) 1 5 0 0 0 "dir" none =
       some ⟨some "dir", some (linspace (-1) 1 5), none⟩ ∧
     ((crunchCellLoop "weights" (fun _ c => c) (fun n _ => n)
         [fun _ : ℚ => ((2 : ℚ), (3 : ℚ))] (0 : ℚ)
         (linspace (-1) 1 5)).2).length = 5 ∧
     (commitArray (crunchLossInit 5)
       ((List.range 5).zip
         (((crunchCellLoop "weights" (fun _ c => c) (fun n _ => n)
             [fun _ : ℚ => ((2 : ℚ), (3 : ℚ))] (0 : ℚ)
             (linspace (-1) 1 5)).2).map (fun r => (r.headD (0, 0)).1)))).length
       = 5 ∧
     ∀ q ∈ commitArray (crunchLossInit 5)
       ((List.range 5).zip
         (((crunchCellLoop "weights" (fun _ c => c) (fun n _ => n)
             [fun _ : ℚ => ((2 : ℚ), (3 : ℚ))] (0 : ℚ)
             (linspace (-1) 1 5)).2).map (fun r => (r.headD (0, 0)).1))),
       q ≠ -1) :=
  ⟨by intro m; norm_num,
    C8_example (fun _ c => c) (fun n _ => n) (0 : ℚ)
      (fun _ : ℚ => ((2 : ℚ), (3 : ℚ))) (by intro m; norm_num)⟩

/-- C10: when `args.dir_type` is neither `"weights"` nor `"states"`, the
`dir_type` dispatch shared by all crunch variants (it has no else-branch
and raises nothing) applies no perturbation at any cell: the net keeps its
initial state through the whole cell loop, and the very same unperturbed
evaluation result is recorded for every grid cell. -/
theorem C10_unknown_dirtype {α γ : Type} (dirType : String)
    (setW setS : α → γ → α) (evalFns : List (α → ℚ × ℚ)) (net0 : α)
    (coords : List γ) (h1 : dirType ≠ "weights") (h2 : dirType ≠ "states") :
    (∀ net c, applyDirection dirType setW setS net c = net) ∧
    (crunchCellLoop dirType setW setS evalFns net0 coords).1 = net0 ∧
    (crunchCellLoop dirType setW setS evalFns net0 coords).2 =
      coords.map (fun _ => evalFns.map (fun ev => ev net0)) := by
  have ha : ∀ (net : α) (c : γ), applyDirection dirType setW setS net c = net := by
    intro net c
    simp [applyDirection, h1, h2]
  refine ⟨ha, ?_⟩
  induction coords with
  | nil => exact ⟨rfl, rfl⟩
  | cons c cs ih =>
    constructor
    · simpa [crunchCellLoop, ha] using ih.1
    · simpa [crunchCellLoop, ha] using ih.2

/-- C10 witness: `dir_type = "foo"` with a two-cell grid: the net stays at
its initial value `0` and both cells record the same unperturbed result
`(0, 1)`. -/
theorem C10_unknown_dirtype_witness :
    ("foo" ≠ "weights") ∧ ("foo" ≠ "states") ∧
    ((∀ (net : ℚ) (c : ℚ),
        applyDirection "foo" (fun n c => n + c) (fun n c => n + c) net c = net) ∧
     (crunchCellLoop "foo" (fun n c => n + c) (fun n c => n + c)
        [fun n : ℚ => (n, n + 1)] (0 : ℚ) [(1 : ℚ), 2]).1 = 0 ∧
     (crunchCellLoop "foo" (fun n c => n + c) (fun n c => n + c)
        [fun n : ℚ => (n, n + 1)] (0 : ℚ) [(1 : ℚ), 2]).2 =
       ([(1 : ℚ), 2]).map (fun _ => ([fun n : ℚ => (n, n + 1)]).map
         (fun ev => ev (0 : ℚ)))) :=
  ⟨by decide, by decide,
    C10_unknown_dirtype "foo" (fun n c => n + c) (fun n c => n + c)
      [fun n : ℚ => (n, n + 1)] (0 : ℚ) [(1 : ℚ), 2] (by decide) (by decide)⟩
